import Mathlib

/-!
Shallow embedding of `prediction_model.py` from the fungis-boosters
repository.  Python floats are modelled as exact rationals (`ℚ`), Python
ints as `ℤ`, Python strings as `String`.  `predict_degradation` divides the
base time by the combined factor and therefore raises `ZeroDivisionError`
when that factor is zero; it is modelled as returning `Option`, with `none`
marking the raise.
-/

set_option maxRecDepth 40000

/-- Floor of a rational, computably (`Int` division is Euclidean and the
denominator is positive, so this is the floor). -/
def floorQ (q : ℚ) : ℤ := q.num / q.den

/-- Ceiling of a rational, computably. -/
def ceilQ (q : ℚ) : ℤ := -floorQ (-q)

/-- Python `int(x)` applied to a float: truncation toward zero. -/
def truncQ (q : ℚ) : ℤ := if q < 0 then ceilQ q else floorQ q

/-- Python `round(x)` to an integer: round half to even (banker's rounding),
as CPython's `round` does. -/
def roundHalfEven (q : ℚ) : ℤ :=
  if q - (floorQ q : ℚ) < 1/2 then floorQ q
  else if 1/2 < q - (floorQ q : ℚ) then floorQ q + 1
  else if 2 ∣ floorQ q then floorQ q else floorQ q + 1

/-- Python `round(x, 1)`. -/
def round1 (q : ℚ) : ℚ := (roundHalfEven (q * 10) : ℚ) / 10

/-- Python `round(x, 2)`. -/
def round2 (q : ℚ) : ℚ := (roundHalfEven (q * 100) : ℚ) / 100

/-- Python substring test `needle in hay` on lists of characters. -/
def containsSub (needle : List Char) : List Char → Bool
  | [] => needle.isEmpty
  | c :: t => needle.isPrefixOf (c :: t) || containsSub needle t

/-- Python `needle in hay` for strings. -/
def containsSubstring (needle hay : String) : Bool :=
  containsSub needle.data hay.data

/-- Python `str.title()`: uppercase every cased character that follows a
non-cased character, lowercase every other cased character (ASCII-faithful). -/
def titleCase (s : String) : String :=
  String.mk (s.data.foldl
    (fun acc c =>
      if c.isAlpha then
        ((if acc.2 then c.toLower else c.toUpper) :: acc.1, true)
      else (c :: acc.1, false))
    (([] : List Char), false)).1.reverse

/-- A `{time, degradation, confidence}` record, as stored in
`PlasticDegradationPredictor.literature_data`, in the `default_data` table of
`_estimate_from_similar_data`, and as produced by the base-rate resolution. -/
structure BaseRate where
  time : ℚ
  degradation : ℚ
  confidence : ℚ
deriving DecidableEq, Repr

/-- `self.base_conditions['temperature']` (25.0 °C). -/
def base_conditions_temperature : ℚ := 25

/-- `self.base_conditions['humidity']` (60.0 %). -/
def base_conditions_humidity : ℚ := 60

/-- `self.base_conditions['ph']` (7.0). -/
def base_conditions_ph : ℚ := 7

/-- `PlasticDegradationPredictor._temperature_factor`. -/
def temperature_factor (temp : ℚ) : ℚ :=
  if temp ≤ 30 then 1 + (temp - base_conditions_temperature) * 0.05
  else 1 + (30 - base_conditions_temperature) * 0.05 - (temp - 30) * 0.03

/-- `PlasticDegradationPredictor._humidity_factor`. -/
def humidity_factor (humidity : ℚ) : ℚ :=
  if 60 ≤ humidity ∧ humidity ≤ 80 then 1.2
  else if humidity < 60 then 0.8 + (humidity / 60) * 0.4
  else 1.2 - (humidity - 80) * 0.01

/-- `PlasticDegradationPredictor._ph_factor`. -/
def ph_factor (ph : ℚ) : ℚ :=
  if 4 ≤ ph ∧ ph ≤ 6 then 1.1
  else if ph < 4 then 0.7 + (ph / 4) * 0.4
  else 1.1 - (ph - 6) * 0.05

/-- `PlasticDegradationPredictor._plastic_form_factor`:
`form_factors.get(plastic_form.lower(), 1.0)`. -/
def plastic_form_factor (plastic_form : String) : ℚ :=
  if plastic_form.toLower = "microplastics" then 1.5
  else if plastic_form.toLower = "pieces" then 1.0
  else if plastic_form.toLower = "film" then 1.3
  else if plastic_form.toLower = "powder" then 2.0
  else 1.0

/-- `self.literature_data`, read as the nested dictionary membership tests of
`predict_degradation` lines 195–199: `literature_data[micro][plastic][form]`
when every key is present, otherwise "not found". -/
def litLookup (micro plastic fk : String) : Option BaseRate :=
  if micro = "Aspergillus niger" then
    if plastic = "PVC" then
      if fk = "pieces" then some ⟨60, 25, 0.65⟩
      else if fk = "microplastics" then some ⟨30, 16, 0.65⟩
      else none
    else if plastic = "PE" then
      if fk = "microplastics" then some ⟨30, 16, 0.8⟩ else none
    else if plastic = "PET" then
      if fk = "microplastics" then some ⟨45, 8, 0.7⟩ else none
    else if plastic = "PS" then
      if fk = "microplastics" then some ⟨35, 12, 0.7⟩ else none
    else none
  else if micro = "Candida albicans" then
    if plastic = "PVC" then
      if fk = "pieces" then some ⟨90, 8, 0.5⟩
      else if fk = "microplastics" then some ⟨45, 5, 0.5⟩
      else none
    else none
  else if micro = "Acremonium sclerotigenum" then
    if plastic = "PET" then
      if fk = "microplastics" then some ⟨30, 6, 0.7⟩ else none
    else if plastic = "PS" then
      if fk = "microplastics" then some ⟨30, 10, 0.7⟩ else none
    else none
  else none

/-- The `default_data` dictionary of `_estimate_from_similar_data`, with its
`.get(plastic_type, {'time': 60, 'degradation': 10, 'confidence': 0.3})`. -/
def default_data (plastic : String) : BaseRate :=
  if plastic = "PVC" then ⟨60, 15, 0.4⟩
  else if plastic = "PE" then ⟨45, 20, 0.5⟩
  else if plastic = "PET" then ⟨50, 12, 0.5⟩
  else if plastic = "PS" then ⟨40, 18, 0.5⟩
  else if plastic = "PP" then ⟨55, 14, 0.4⟩
  else ⟨60, 10, 0.3⟩

/-- The `organism_factors` dictionary of `_estimate_from_similar_data`, with
its `.get(microorganism, 0.8)`. -/
def organism_factor (micro : String) : ℚ :=
  if micro = "Aspergillus niger" then 1.2
  else if micro = "Candida albicans" then 0.6
  else if micro = "Acremonium sclerotigenum" then 0.8
  else if micro = "Penicillium" then 1.0
  else if micro = "Trichoderma" then 1.1
  else 0.8

/-- `PlasticDegradationPredictor._estimate_from_similar_data`. -/
def estimate_from_similar_data (plastic micro : String) : BaseRate :=
  let base := default_data plastic
  let factor := organism_factor micro
  ⟨(truncQ (base.time / factor) : ℤ), base.degradation * factor,
    base.confidence * 0.8⟩

/-- Form bucketing on `predict_degradation` line 197:
`'microplastics' if 'microplastic' in plastic_form.lower() else 'pieces'`. -/
def form_key (plastic_form : String) : String :=
  if containsSubstring "microplastic" plastic_form.toLower then "microplastics"
  else "pieces"

/-- Base-rate resolution of `predict_degradation` lines 194–203: the
literature entry when present, otherwise `_estimate_from_similar_data`. -/
def resolveBase (plastic micro fk : String) : BaseRate :=
  match litLookup micro plastic fk with
  | some b => b
  | none => estimate_from_similar_data plastic micro

/-- Product of the four correction factors (`combined_factor`, line 212). -/
def combinedFactor (temperature humidity ph : ℚ) (plastic_form : String) : ℚ :=
  temperature_factor temperature * humidity_factor humidity *
    ph_factor ph * plastic_form_factor plastic_form

/-- The list built by `_generate_notes` before joining. -/
def notesList (temp humidity ph : ℚ) (plastic_form : String)
    (combined_factor : ℚ) : List String :=
  (if combined_factor > 1.5 then ["Condições muito favoráveis para degradação"]
   else if combined_factor > 1.2 then ["Condições favoráveis para degradação"]
   else if combined_factor < 0.8 then ["Condições desfavoráveis para degradação"]
   else [])
  ++ (if temp > 35 then ["Temperatura pode inibir atividade fúngica"]
      else if temp < 15 then ["Temperatura baixa pode retardar degradação"]
      else [])
  ++ (if humidity < 40 then ["Umidade baixa pode limitar crescimento fúngico"]
      else if humidity > 90 then ["Umidade muito alta pode favorecer contaminação"]
      else [])
  ++ (if ph < 3 then ["pH muito ácido pode inibir fungos"]
      else if ph > 8 then ["pH alcalino pode reduzir eficiência"]
      else [])
  ++ (if containsSubstring "microplastic" plastic_form.toLower then
        ["Microplásticos degradam mais rapidamente devido à maior área superficial"]
      else [])

/-- `PlasticDegradationPredictor._generate_notes`. -/
def generate_notes (temp humidity ph : ℚ) (plastic_form : String)
    (combined_factor : ℚ) : String :=
  let notes := notesList temp humidity ph plastic_form combined_factor
  if notes.isEmpty then "Condições dentro dos parâmetros normais"
  else String.intercalate "; " notes

/-- The environment's answer to the advisory HTTP POST issued by
`APIClient.query_degradation_data`: either a response with a status code and
a JSON-object body (given by its key set), or a transport exception. -/
inductive TransportOutcome where
  | ok (status : ℕ) (bodyKeys : List String)
  | exn (msg : String)
deriving DecidableEq, Repr

/-- `APIClient.query_degradation_data`: returns the parsed body on HTTP 200
and an `{"error": ...}` marker dictionary (modelled by its key set) on any
other status or on a transport exception. -/
def query_degradation_data : TransportOutcome → List String
  | .ok status keys => if status = 200 then keys else ["error"]
  | .exn _ => ["error"]

/-- The test `if api_data and "error" not in api_data` on line 222:
a `None` or empty dictionary is falsy, and `in` is key membership. -/
def apiEnhances : Option (List String) → Bool
  | some keys => !keys.isEmpty && !keys.contains "error"
  | none => false

/-- The `conditions` dictionary echoed in the returned record. -/
structure Conditions where
  temperature : ℚ
  humidity : ℚ
  ph : ℚ
  plastic_form : String
deriving DecidableEq, Repr

/-- The `DegradationPrediction` dataclass. -/
structure DegradationPrediction where
  degradation_time_days : ℤ
  weight_loss_percentage : ℚ
  confidence : ℚ
  conditions : Conditions
  notes : String
  microorganism : String
  plastic_type : String
deriving DecidableEq, Repr

/-- `PlasticDegradationPredictor.predict_degradation`.  The first argument is
the predictor's `use_api` flag; the second is the advisory client's response
(`None` models an absent client, `some keys` the key set of the dictionary
`_query_api_for_degradation` would return).  The result is `none` exactly
when the combined factor is zero, where the Python code raises
`ZeroDivisionError` on line 214. -/
def predict_degradation (use_api : Bool) (api_response : Option (List String))
    (plastic_type microorganism : String) (temperature humidity ph : ℚ)
    (plastic_form : String) : Option DegradationPrediction :=
  let plastic := plastic_type.toUpper
  let micro := titleCase microorganism
  let api_data := if use_api then api_response else none
  let base_data := resolveBase plastic micro (form_key plastic_form)
  let combined := combinedFactor temperature humidity ph plastic_form
  if combined = 0 then none
  else
    let adjusted_time : ℤ := max 1 (truncQ (base_data.time / combined))
    let adjusted_degradation := min 100 (base_data.degradation * combined)
    let adjusted_confidence := base_data.confidence * min 1 (combined / 2)
    let enhanced := apiEnhances api_data
    let adjusted_confidence :=
      if enhanced then adjusted_confidence * 1.3 else adjusted_confidence
    let adjusted_time : ℤ :=
      if enhanced then max 1 (truncQ ((adjusted_time : ℚ) * 0.9))
      else adjusted_time
    let api_notes :=
      if enhanced then " Dados enriquecidos com informações da API científica."
      else ""
    let notes := generate_notes temperature humidity ph plastic_form combined
      ++ api_notes
    some
      { degradation_time_days := adjusted_time
        weight_loss_percentage := round1 adjusted_degradation
        confidence := round2 adjusted_confidence
        conditions := ⟨temperature, humidity, ph, plastic_form⟩
        notes := notes
        microorganism := micro
        plastic_type := plastic }

/-- One batch element: `predict_degradation(**conditions)`. -/
structure PredRequest where
  plastic_type : String
  microorganism : String
  temperature : ℚ := 25
  humidity : ℚ := 60
  ph : ℚ := 7
  plastic_form : String := "pieces"
deriving DecidableEq, Repr

/-- `predict_degradation` applied to one request record. -/
def predictOne (use_api : Bool) (api_response : Option (List String))
    (c : PredRequest) : Option DegradationPrediction :=
  predict_degradation use_api api_response c.plastic_type c.microorganism
    c.temperature c.humidity c.ph c.plastic_form

/-- `PlasticDegradationPredictor.batch_predict`: sequential loop appending
each prediction; an exception in any element aborts the whole batch. -/
def batch_predict (use_api : Bool) (api_response : Option (List String)) :
    List PredRequest → Option (List DegradationPrediction)
  | [] => some []
  | c :: rest =>
    (predictOne use_api api_response c).bind fun p =>
      (batch_predict use_api api_response rest).map fun ps => p :: ps

/-- Spec §4.1, temperature rule, exactly as worded there. -/
def spec_temperature_factor (temp : ℚ) : ℚ :=
  if temp ≤ 30 then 1 + (temp - 25) * 0.05
  else 1 + 5 * 0.05 - (temp - 30) * 0.03

/-- Spec §4.1, humidity rule, low band first as worded there. -/
def spec_humidity_factor (humidity : ℚ) : ℚ :=
  if humidity < 60 then 0.8 + (humidity / 60) * 0.4
  else if humidity ≤ 80 then 1.2
  else 1.2 - (humidity - 80) * 0.01

/-- Spec §4.1, pH rule, low band first as worded there. -/
def spec_ph_factor (ph : ℚ) : ℚ :=
  if ph < 4 then 0.7 + (ph / 4) * 0.4
  else if ph ≤ 6 then 1.1
  else 1.1 - (ph - 6) * 0.05

/-- Spec §4.1, form-factor lookup with case-insensitive keys and default 1. -/
def spec_form_factor (f : String) : ℚ :=
  if f.toLower = "microplastics" then 1.5
  else if f.toLower = "pieces" then 1.0
  else if f.toLower = "film" then 1.3
  else if f.toLower = "powder" then 2.0
  else 1.0

/-- The concrete record returned for
`("PVC", "Candida albicans", 25, 60, 7, "pieces")` with the advisory client
disabled, used to instantiate hypothesis-bearing theorems. -/
def sampleResult : DegradationPrediction :=
  ⟨59, 15.1, 0.2, ⟨25, 60, 7, "pieces"⟩,
    "Condições favoráveis para degradação", "Candida Albicans", "PVC"⟩

/-- The request record producing `sampleResult`. -/
def sampleRequest : PredRequest :=
  ⟨"PVC", "Candida albicans", 25, 60, 7, "pieces"⟩

/-! ## Helper lemmas -/

theorem floorQ_eq_intFloor (q : ℚ) : floorQ q = ⌊q⌋ := by
  rw [floorQ, Rat.floor_def]

theorem roundHalfEven_le {q : ℚ} {n : ℤ} (h : q ≤ (n : ℚ)) :
    roundHalfEven q ≤ n := by
  have hfq : floorQ q = ⌊q⌋ := floorQ_eq_intFloor q
  have hf : ⌊q⌋ ≤ n := by simpa using Int.floor_mono h
  have hle : (⌊q⌋ : ℚ) ≤ q := Int.floor_le q
  have key : 0 < q - (floorQ q : ℚ) → ⌊q⌋ + 1 ≤ n := by
    intro hh
    rw [hfq] at hh
    rcases lt_or_eq_of_le hf with hlt | heq
    · omega
    · exfalso
      have hcast : ((⌊q⌋ : ℤ) : ℚ) = (n : ℚ) := by exact_mod_cast heq
      linarith
  unfold roundHalfEven
  split_ifs with h1 h2 h3
  · rw [hfq]; exact hf
  · rw [hfq]; exact key (by linarith)
  · rw [hfq]; exact hf
  · rw [hfq]; exact key (by linarith [not_lt.mp h1])

theorem round1_le {x : ℚ} {n : ℤ} (h : x ≤ (n : ℚ) / 10) :
    round1 x ≤ (n : ℚ) / 10 := by
  unfold round1
  have h1 : x * 10 ≤ (n : ℚ) := by linarith
  have h2 : roundHalfEven (x * 10) ≤ n := roundHalfEven_le h1
  have h3 : ((roundHalfEven (x * 10) : ℤ) : ℚ) ≤ (n : ℚ) := by exact_mod_cast h2
  linarith

theorem round2_le {x : ℚ} {n : ℤ} (h : x ≤ (n : ℚ) / 100) :
    round2 x ≤ (n : ℚ) / 100 := by
  unfold round2
  have h1 : x * 100 ≤ (n : ℚ) := by linarith
  have h2 : roundHalfEven (x * 100) ≤ n := roundHalfEven_le h1
  have h3 : ((roundHalfEven (x * 100) : ℤ) : ℚ) ≤ (n : ℚ) := by exact_mod_cast h2
  linarith

/-! ## Claim theorems -/

/-- C3: each of the four correction-factor functions of the code equals the
spec's exact piecewise rule at every input. -/
theorem c3_factors_match_spec :
    (∀ t : ℚ, temperature_factor t = spec_temperature_factor t) ∧
    (∀ h : ℚ, humidity_factor h = spec_humidity_factor h) ∧
    (∀ p : ℚ, ph_factor p = spec_ph_factor p) ∧
    (∀ f : String, plastic_form_factor f = spec_form_factor f) := by
  refine ⟨fun t => ?_, fun h => ?_, fun p => ?_, fun f => ?_⟩
  · unfold temperature_factor spec_temperature_factor base_conditions_temperature
    split_ifs <;> norm_num
  · unfold humidity_factor spec_humidity_factor
    by_cases h1 : h < 60
    · rw [if_neg (fun hc => absurd h1 (not_lt.mpr hc.1)), if_pos h1, if_pos h1]
    · by_cases h2 : h ≤ 80
      · rw [if_pos ⟨not_lt.mp h1, h2⟩, if_neg h1, if_pos h2]
      · rw [if_neg (fun hc => absurd hc.2 h2), if_neg h1, if_neg h1, if_neg h2]
  · unfold ph_factor spec_ph_factor
    by_cases h1 : p < 4
    · rw [if_neg (fun hc => absurd h1 (not_lt.mpr hc.1)), if_pos h1, if_pos h1]
    · by_cases h2 : p ≤ 6
      · rw [if_pos ⟨not_lt.mp h1, h2⟩, if_neg h1, if_pos h2]
      · rw [if_neg (fun hc => absurd hc.2 h2), if_neg h1, if_neg h1, if_neg h2]
  · unfold plastic_form_factor spec_form_factor
    rfl

/-- C7: with the advisory client disabled, the prediction does not depend on
the advisory environment at all, so two calls with identical arguments give
identical records in every field. -/
theorem c7_disabled_deterministic (a1 a2 : Option (List String))
    (p m : String) (t h ph : ℚ) (f : String) :
    predict_degradation false a1 p m t h ph f =
      predict_degradation false a2 p m t h ph f := rfl

/-- C8: the notes generator, on `(40, 95, 2, "microplastics")` with its actual
combined factor, produces exactly the ordered "; "-joined observations — the
favourable marker, the high-temperature inhibition phrase, the high-humidity
contamination phrase, the low-pH inhibition phrase and the microplastics
surface-area phrase — and returns the literal fallback string when no rule
triggers. -/
theorem c8_notes_generator :
    generate_notes 40 95 2 "microplastics" (combinedFactor 40 95 2 "microplastics") =
      "Condições favoráveis para degradação; Temperatura pode inibir atividade fúngica; Umidade muito alta pode favorecer contaminação; pH muito ácido pode inibir fungos; Microplásticos degradam mais rapidamente devido à maior área superficial" ∧
    containsSubstring "Temperatura pode inibir atividade fúngica"
      (generate_notes 40 95 2 "microplastics" (combinedFactor 40 95 2 "microplastics")) = true ∧
    containsSubstring "Umidade muito alta pode favorecer contaminação"
      (generate_notes 40 95 2 "microplastics" (combinedFactor 40 95 2 "microplastics")) = true ∧
    containsSubstring "pH muito ácido pode inibir fungos"
      (generate_notes 40 95 2 "microplastics" (combinedFactor 40 95 2 "microplastics")) = true ∧
    containsSubstring "Microplásticos degradam mais rapidamente devido à maior área superficial"
      (generate_notes 40 95 2 "microplastics" (combinedFactor 40 95 2 "microplastics")) = true ∧
    generate_notes 25 60 7 "pieces" 1 = "Condições dentro dos parâmetros normais" := by
  with_unfolding_all decide

/-- C1: code-bug evidence.  `predict_degradation` canonicalizes the
microorganism with `str.title()`, which maps `"Aspergillus niger"` to
`"Aspergillus Niger"` — not a key of the literature table — so the lookup
misses and the default-estimate path runs instead (yielding 59 days and
confidence 0.2 rather than the literature base `{60, 25, 0.65}`, which is
stored under the un-titlecased key and would give 47 days). -/
theorem c1_title_case_defeats_literature_lookup :
    titleCase "Aspergillus niger" = "Aspergillus Niger" ∧
    litLookup (titleCase "Aspergillus niger") "PVC" (form_key "pieces") = none ∧
    litLookup "Aspergillus niger" "PVC" "pieces" = some ⟨60, 25, 0.65⟩ ∧
    predict_degradation false none "PVC" "Aspergillus niger" 25 60 7 "pieces" =
      some ⟨59, 15.1, 0.2, ⟨25, 60, 7, "pieces"⟩,
        "Condições favoráveis para degradação", "Aspergillus Niger", "PVC"⟩ ∧
    max 1 (truncQ ((60 : ℚ) / combinedFactor 25 60 7 "pieces")) = 47 := by
  with_unfolding_all decide

/-- C2 counterexample: at temperature 5 the temperature factor is
`1 + (5 − 25)·0.05 = 0`, so the combined factor is zero and
`predict_degradation` raises `ZeroDivisionError` (modelled as `none`) instead
of returning a record. -/
theorem c2_zero_factor_counterexample :
    combinedFactor 5 60 7 "pieces" = 0 ∧
    predict_degradation false none "PE" "Penicillium" 5 60 7 "pieces" = none := by
  with_unfolding_all decide

/-- C2 (amended): whenever the combined factor is nonzero the division is
well-defined and `predict_degradation` returns a record, and every record it
returns satisfies `degradation_time_days ≥ 1` and
`weight_loss_percentage ≤ 100`. -/
theorem c2_output_bounds (u : Bool) (a : Option (List String))
    (p m : String) (t h ph : ℚ) (f : String)
    (hcf : combinedFactor t h ph f ≠ 0) :
    (predict_degradation u a p m t h ph f).isSome = true ∧
    ∀ r, predict_degradation u a p m t h ph f = some r →
      1 ≤ r.degradation_time_days ∧ r.weight_loss_percentage ≤ 100 := by
  constructor
  · unfold predict_degradation
    rw [if_neg hcf]
    rfl
  · intro r hr
    unfold predict_degradation at hr
    rw [if_neg hcf] at hr
    have hrr := Option.some.inj hr
    subst hrr
    constructor
    · dsimp only
      split_ifs <;> exact le_max_left _ _
    · dsimp only
      have hmin : min 100 ((resolveBase p.toUpper (titleCase m) (form_key f)).degradation
          * combinedFactor t h ph f) ≤ ((1000 : ℤ) : ℚ) / 10 := by
        have := min_le_left (100 : ℚ) ((resolveBase p.toUpper (titleCase m) (form_key f)).degradation
          * combinedFactor t h ph f)
        push_cast
        linarith
      have := round1_le hmin
      push_cast at this
      linarith

/-- C2 witness. -/
theorem c2_output_bounds_witness :
    combinedFactor 25 60 7 "pieces" ≠ 0 ∧
    predict_degradation false none "PVC" "Candida albicans" 25 60 7 "pieces" =
      some sampleResult ∧
    (1 ≤ sampleResult.degradation_time_days ∧
      sampleResult.weight_loss_percentage ≤ 100) :=
  ⟨by with_unfolding_all decide, by with_unfolding_all decide,
    (c2_output_bounds false none "PVC" "Candida albicans" 25 60 7 "pieces"
      (by with_unfolding_all decide)).2 sampleResult (by with_unfolding_all decide)⟩

/-- C9: a form string whose lower-casing contains `"microplastic"` without
being exactly `"microplastics"` is bucketed to the microplastics literature
key and triggers the surface-area note, yet receives the neutral form factor
1 rather than 1.5, because bucketing tests substring containment while the
factor uses exact dictionary lookup. -/
theorem c9_bucket_vs_form_factor (f : String) (t h p c : ℚ)
    (h1 : containsSubstring "microplastic" f.toLower = true)
    (h2 : f.toLower ≠ "microplastics") :
    form_key f = "microplastics" ∧
    plastic_form_factor f = 1 ∧
    "Microplásticos degradam mais rapidamente devido à maior área superficial" ∈
      notesList t h p f c := by
  refine ⟨?_, ?_, ?_⟩
  · unfold form_key
    rw [if_pos h1]
  · unfold plastic_form_factor
    rw [if_neg h2]
    split_ifs with ha hb hc
    · rw [ha] at h1; exact absurd h1 (by decide)
    · rw [hb] at h1; exact absurd h1 (by decide)
    · rw [hc] at h1; exact absurd h1 (by decide)
    · norm_num
  · unfold notesList
    rw [if_pos h1]
    simp [List.mem_append]

/-- C9 witness. -/
theorem c9_bucket_vs_form_factor_witness :
    containsSubstring "microplastic" ("Microplastic").toLower = true ∧
    ("Microplastic").toLower ≠ "microplastics" ∧
    (form_key "Microplastic" = "microplastics" ∧
     plastic_form_factor "Microplastic" = 1 ∧
     "Microplásticos degradam mais rapidamente devido à maior área superficial" ∈
       notesList 25 60 7 "Microplastic" 1) :=
  ⟨by with_unfolding_all decide, by with_unfolding_all decide,
    c9_bucket_vs_form_factor "Microplastic" 25 60 7 1
      (by with_unfolding_all decide) (by with_unfolding_all decide)⟩

/-- C4 counterexample: on a literature miss the default-estimate path is
taken, but `predict_degradation` can still fail — at temperature 5 the
combined factor is zero and the division raises. -/
theorem c4_never_fails_counterexample :
    litLookup (titleCase "Unknown Fungus") ("xx").toUpper (form_key "pieces") = none ∧
    predict_degradation false none "xx" "Unknown Fungus" 5 60 7 "pieces" = none := by
  with_unfolding_all decide

/-- C4 (amended): whenever the literature table has no entry for the
canonicalized triple and the combined factor is nonzero,
`predict_degradation` returns a record, and the base rate it uses is the
plastic's default entry (or the hardcoded fallback baked into
`default_data`) with time divided and degradation multiplied by the
microorganism's efficiency factor and confidence multiplied by 0.8. -/
theorem c4_default_estimate_path (u : Bool) (a : Option (List String))
    (p m : String) (t h ph : ℚ) (f : String)
    (hmiss : litLookup (titleCase m) p.toUpper (form_key f) = none)
    (hcf : combinedFactor t h ph f ≠ 0) :
    (predict_degradation u a p m t h ph f).isSome = true ∧
    estimate_from_similar_data p.toUpper (titleCase m) =
      ⟨(truncQ ((default_data p.toUpper).time / organism_factor (titleCase m)) : ℤ),
        (default_data p.toUpper).degradation * organism_factor (titleCase m),
        (default_data p.toUpper).confidence * 0.8⟩ ∧
    predict_degradation false none p m t h ph f = some
      { degradation_time_days := max 1 (truncQ
          ((estimate_from_similar_data p.toUpper (titleCase m)).time /
            combinedFactor t h ph f))
        weight_loss_percentage := round1 (min 100
          ((estimate_from_similar_data p.toUpper (titleCase m)).degradation *
            combinedFactor t h ph f))
        confidence := round2
          ((estimate_from_similar_data p.toUpper (titleCase m)).confidence *
            min 1 (combinedFactor t h ph f / 2))
        conditions := ⟨t, h, ph, f⟩
        notes := generate_notes t h ph f (combinedFactor t h ph f)
        microorganism := titleCase m
        plastic_type := p.toUpper } := by
  have hres : resolveBase p.toUpper (titleCase m) (form_key f) =
      estimate_from_similar_data p.toUpper (titleCase m) := by
    unfold resolveBase
    rw [hmiss]
  refine ⟨?_, rfl, ?_⟩
  · unfold predict_degradation
    rw [if_neg hcf]
    rfl
  · unfold predict_degradation
    rw [if_neg hcf, hres]
    simp [apiEnhances, String.append_empty]

/-- C4 witness. -/
theorem c4_default_estimate_path_witness :
    litLookup (titleCase "Unknown Fungus") ("PLA").toUpper (form_key "film") = none ∧
    combinedFactor 30 70 5 "film" ≠ 0 ∧
    (predict_degradation true (some ["x"]) "PLA" "Unknown Fungus" 30 70 5 "film").isSome = true :=
  ⟨by with_unfolding_all decide, by with_unfolding_all decide,
    (c4_default_estimate_path true (some ["x"]) "PLA" "Unknown Fungus" 30 70 5 "film"
      (by with_unfolding_all decide) (by with_unfolding_all decide)).1⟩

/-- C5: on a non-error advisory response the predictor multiplies the
adjusted confidence by 1.3, replaces the adjusted time by
`max(1, floor(adjusted_time · 0.9))` and appends the enrichment note; with
the client disabled, or on the error marker that
`query_degradation_data` returns for every non-200 status or transport
exception, none of these enhancements is applied, and the advisory path
never prevents the predictor from returning. -/
theorem c5_advisory_enhancement (p m : String) (t h ph : ℚ) (f : String)
    (hcf : combinedFactor t h ph f ≠ 0) :
    (∀ keys : List String, keys ≠ [] → "error" ∉ keys →
      predict_degradation true (some keys) p m t h ph f = some
        { degradation_time_days := max 1 (truncQ
            ((max 1 (truncQ ((resolveBase p.toUpper (titleCase m) (form_key f)).time /
              combinedFactor t h ph f)) : ℚ) * 0.9))
          weight_loss_percentage := round1 (min 100
            ((resolveBase p.toUpper (titleCase m) (form_key f)).degradation *
              combinedFactor t h ph f))
          confidence := round2
            ((resolveBase p.toUpper (titleCase m) (form_key f)).confidence *
              min 1 (combinedFactor t h ph f / 2) * 1.3)
          conditions := ⟨t, h, ph, f⟩
          notes := generate_notes t h ph f (combinedFactor t h ph f) ++
            " Dados enriquecidos com informações da API científica."
          microorganism := titleCase m
          plastic_type := p.toUpper }) ∧
    (∀ keys : List String, "error" ∈ keys ∨ keys = [] →
      predict_degradation true (some keys) p m t h ph f =
        predict_degradation false none p m t h ph f) ∧
    (∀ st b, st ≠ 200 → query_degradation_data (.ok st b) = ["error"]) ∧
    (∀ msg, query_degradation_data (.exn msg) = ["error"]) ∧
    (∀ a, (predict_degradation true a p m t h ph f).isSome = true) := by
  refine ⟨?_, ?_, ?_, ?_, ?_⟩
  · intro keys hne hmem
    have h1 : keys.isEmpty = false := by
      cases keys with
      | nil => exact absurd rfl hne
      | cons x xs => rfl
    have h2 : keys.contains "error" = false := by
      cases hval : keys.contains "error" with
      | false => rfl
      | true => exact absurd (List.mem_of_elem_eq_true hval) hmem
    have hE : apiEnhances (some keys) = true := by
      simp [apiEnhances, h1, h2, hmem]
    unfold predict_degradation
    rw [if_neg hcf]
    have hred : (if (true : Bool) = true then some keys else none) = some keys := rfl
    rw [hred, hE]
    simp
  · intro keys hk
    have hE : apiEnhances (some keys) = false := by
      rcases hk with hmem | hnil
      · have hc : keys.contains "error" = true := List.elem_eq_true_of_mem hmem
        simp [apiEnhances, hc]
        exact fun _ => hmem
      · subst hnil
        rfl
    unfold predict_degradation
    rw [if_neg hcf, if_neg hcf]
    have hred : (if (true : Bool) = true then some keys else none) = some keys := rfl
    rw [hred, hE]
    rfl
  · intro st b hst
    simp only [query_degradation_data]
    rw [if_neg hst]
  · intro msg
    rfl
  · intro a2
    unfold predict_degradation
    rw [if_neg hcf]
    rfl

/-- C5 witness. -/
theorem c5_advisory_enhancement_witness :
    combinedFactor 25 60 7 "pieces" ≠ 0 ∧
    predict_degradation true (some ["error"]) "PVC" "Aspergillus niger" 25 60 7 "pieces" =
      predict_degradation false none "PVC" "Aspergillus niger" 25 60 7 "pieces" ∧
    (predict_degradation true (some ["dados"]) "PVC" "Aspergillus niger" 25 60 7 "pieces").isSome = true :=
  ⟨by with_unfolding_all decide,
    (c5_advisory_enhancement "PVC" "Aspergillus niger" 25 60 7 "pieces"
      (by with_unfolding_all decide)).2.1 ["error"] (Or.inl (by decide)),
    (c5_advisory_enhancement "PVC" "Aspergillus niger" 25 60 7 "pieces"
      (by with_unfolding_all decide)).2.2.2.2 (some ["dados"])⟩

/-- C6 counterexample: a one-element batch whose request has temperature 5
makes `predict_degradation` raise (combined factor zero), so `batch_predict`
raises too and no list of length 1 is returned. -/
theorem c6_batch_raises_counterexample :
    batch_predict false none [⟨"PS", "Candida albicans", 5, 60, 7, "pieces"⟩] = none := by
  with_unfolding_all decide

/-- C6 (amended): whenever `batch_predict` returns, it returns exactly one
prediction per request, in input order, each equal to an independent
`predict_degradation` call on the corresponding request. -/
theorem c6_batch_order (u : Bool) (a : Option (List String))
    (l : List PredRequest) (ps : List DegradationPrediction)
    (hb : batch_predict u a l = some ps) :
    ps.length = l.length ∧
    ∀ i (hi : i < l.length) (hi' : i < ps.length),
      predictOne u a (l.get ⟨i, hi⟩) = some (ps.get ⟨i, hi'⟩) := by
  induction l generalizing ps with
  | nil =>
    unfold batch_predict at hb
    obtain rfl := (Option.some.inj hb)
    refine ⟨rfl, ?_⟩
    intro i hi hi'
    simp at hi
  | cons c rest ih =>
    unfold batch_predict at hb
    obtain ⟨pfirst, hp, hrest⟩ := Option.bind_eq_some.mp hb
    obtain ⟨ps', hps', rfl⟩ := Option.map_eq_some'.mp hrest
    obtain ⟨hlen, helem⟩ := ih ps' hps'
    refine ⟨by simp [hlen], ?_⟩
    intro i hi hi'
    cases i with
    | zero => simpa using hp
    | succ n =>
      have hi2 : n < rest.length := by
        simp at hi
        omega
      have hi2' : n < ps'.length := by
        simp at hi'
        omega
      simpa using helem n hi2 hi2'

/-- C6 witness. -/
theorem c6_batch_order_witness :
    batch_predict false none [sampleRequest, sampleRequest] =
      some [sampleResult, sampleResult] ∧
    (([sampleResult, sampleResult] : List DegradationPrediction).length =
        ([sampleRequest, sampleRequest] : List PredRequest).length ∧
      ∀ i (hi : i < ([sampleRequest, sampleRequest] : List PredRequest).length)
        (hi' : i < ([sampleResult, sampleResult] : List DegradationPrediction).length),
        predictOne false none (([sampleRequest, sampleRequest] : List PredRequest).get ⟨i, hi⟩) =
          some (([sampleResult, sampleResult] : List DegradationPrediction).get ⟨i, hi'⟩)) :=
  ⟨by with_unfolding_all decide,
    c6_batch_order false none [sampleRequest, sampleRequest] [sampleResult, sampleResult]
      (by with_unfolding_all decide)⟩

theorem litLookup_confidence_mem (micro plastic fk : String) (b : BaseRate)
    (hb : litLookup micro plastic fk = some b) :
    b.confidence ∈ ([0.65, 0.8, 0.7, 0.5] : List ℚ) := by
  unfold litLookup at hb
  split_ifs at hb <;> cases hb <;> simp

theorem estimate_confidence_mem (plastic micro : String) :
    (estimate_from_similar_data plastic micro).confidence ∈
      ([0.32, 0.4, 0.24] : List ℚ) := by
  unfold estimate_from_similar_data default_data
  split_ifs <;> simp <;> norm_num

theorem resolveBase_confidence_mem (plastic micro fk : String) :
    (resolveBase plastic micro fk).confidence ∈
      ([0.65, 0.8, 0.7, 0.5, 0.32, 0.4, 0.24] : List ℚ) := by
  unfold resolveBase
  cases hl : litLookup micro plastic fk with
  | none =>
    have h := estimate_confidence_mem plastic micro
    simp at h ⊢
    tauto
  | some b =>
    have h := litLookup_confidence_mem micro plastic fk b hl
    simp at h ⊢
    tauto

theorem conf_round_le (x : ℚ) (n : ℤ) (c : ℚ) (hceq : c = (n : ℚ) / 100)
    (hn0 : 0 ≤ (n : ℚ)) (hn : (n : ℚ) ≤ 100) (hx : x ≤ 1) :
    round2 (c * x) ≤ c ∧ round2 (c * x) ≤ 1 := by
  have h0c : 0 ≤ c := by
    rw [hceq]
    positivity
  have h1 : c * x ≤ c := mul_le_of_le_one_right h0c hx
  have h2 : round2 (c * x) ≤ (n : ℚ) / 100 := by
    apply round2_le
    rw [← hceq]
    exact h1
  refine ⟨?_, by linarith⟩
  calc round2 (c * x) ≤ (n : ℚ) / 100 := h2
    _ = c := hceq.symm

/-- C10: with the advisory client disabled, the returned confidence never
exceeds the resolved base-rate confidence (the multiplier
`min(1, combined_factor / 2)` is at most 1 and every shipped base confidence
is nonnegative), and since the largest confidence in the shipped tables is
0.8, it never exceeds 1. -/
theorem c10_confidence_bounded (p m : String) (t h ph : ℚ) (f : String)
    (r : DegradationPrediction)
    (hr : predict_degradation false none p m t h ph f = some r) :
    r.confidence ≤ (resolveBase p.toUpper (titleCase m) (form_key f)).confidence ∧
    r.confidence ≤ 1 := by
  by_cases hcf : combinedFactor t h ph f = 0
  · unfold predict_degradation at hr
    rw [if_pos hcf] at hr
    cases hr
  · unfold predict_degradation at hr
    rw [if_neg hcf] at hr
    have hrr := Option.some.inj hr
    subst hrr
    change round2 ((resolveBase p.toUpper (titleCase m) (form_key f)).confidence *
        min 1 (combinedFactor t h ph f / 2)) ≤ _ ∧
      round2 ((resolveBase p.toUpper (titleCase m) (form_key f)).confidence *
        min 1 (combinedFactor t h ph f / 2)) ≤ 1
    have hx : min 1 (combinedFactor t h ph f / 2) ≤ 1 := min_le_left _ _
    have hmem := resolveBase_confidence_mem p.toUpper (titleCase m) (form_key f)
    simp only [List.mem_cons, List.not_mem_nil, or_false] at hmem
    rcases hmem with hm|hm|hm|hm|hm|hm|hm <;> rw [hm]
    · exact conf_round_le _ 65 _ (by norm_num) (by norm_num) (by norm_num) hx
    · exact conf_round_le _ 80 _ (by norm_num) (by norm_num) (by norm_num) hx
    · exact conf_round_le _ 70 _ (by norm_num) (by norm_num) (by norm_num) hx
    · exact conf_round_le _ 50 _ (by norm_num) (by norm_num) (by norm_num) hx
    · exact conf_round_le _ 32 _ (by norm_num) (by norm_num) (by norm_num) hx
    · exact conf_round_le _ 40 _ (by norm_num) (by norm_num) (by norm_num) hx
    · exact conf_round_le _ 24 _ (by norm_num) (by norm_num) (by norm_num) hx

/-- C10 witness. -/
theorem c10_confidence_bounded_witness :
    predict_degradation false none "PVC" "Candida albicans" 25 60 7 "pieces" =
      some sampleResult ∧
    (sampleResult.confidence ≤
        (resolveBase ("PVC").toUpper (titleCase "Candida albicans")
          (form_key "pieces")).confidence ∧
      sampleResult.confidence ≤ 1) :=
  ⟨by with_unfolding_all decide,
    c10_confidence_bounded "PVC" "Candida albicans" 25 60 7 "pieces" sampleResult
      (by with_unfolding_all decide)⟩
